import Mathlib

/-!
Verification of the Coordinate Service (`main.py`): a FastAPI HTTP layer over
a single PostgreSQL table `coordinates(id SERIAL PRIMARY KEY, latitude, longitude,
name VARCHAR(255), created_at)`.

Shallow embedding: the database is a `Db` (list of rows plus the SERIAL
sequence counter).  Each request handler becomes a pure function from the
current database state to the new state, the HTTP response, and the trace of
connection-lifecycle events produced by the `get_db_connection` context
manager.  Storage failures that do not depend on the data (loss of
connectivity, an arbitrary statement failure) are supplied as boolean
oracles `connFail` / `stmtFail`; the `VARCHAR(255)` constraint violation is a
data-dependent store failure and is computed from the inserted name.
Latitude/longitude are carried as `Rat`: the service performs no arithmetic
on them, only storage and retrieval, so any field with decidable equality is
a faithful carrier.
-/

namespace CoordinatesApi

/-- One row of the `coordinates` table.  `created_at` is assigned by the
store at insertion (`DEFAULT CURRENT_TIMESTAMP`), modelled as a `Nat` clock
value supplied to the insert operation. -/
structure Row where
  id : Nat
  latitude : Rat
  longitude : Rat
  name : Option String
  created_at : Nat
deriving DecidableEq

/-- The state of the `coordinates` table: its rows plus the next value of the
`SERIAL` sequence backing the `id` column (PostgreSQL sequences start at 1 and
never reuse a value, even after deletes). -/
structure Db where
  rows : List Row
  nextId : Nat
deriving DecidableEq

/-- A freshly created table (what `CREATE TABLE IF NOT EXISTS` produces when
the table was absent). -/
def emptyTable : Db := ⟨[], 1⟩

/-- Request body of `POST /coordinates` (the pydantic `Coordinate` model:
required floats `latitude`, `longitude`, optional `name`, no further
constraints). -/
structure Coordinate where
  latitude : Rat
  longitude : Rat
  name : Option String := none
deriving DecidableEq

/-- Response model `CoordinateResponse`: `id`, `latitude`, `longitude`,
`name`.  It has no `created_at` field: that column is never selected by any
query the handlers run. -/
structure CoordinateResponse where
  id : Nat
  latitude : Rat
  longitude : Rat
  name : Option String := none
deriving DecidableEq

/-- Projection of a stored row to the response shape, as performed by
`RETURNING id, latitude, longitude, name` and
`SELECT id, latitude, longitude, name`.  Drops `created_at`. -/
def Row.toResponse (r : Row) : CoordinateResponse :=
  ⟨r.id, r.latitude, r.longitude, r.name⟩

/-- The HTTP responses the handlers can produce: `201` with the created
record, `200` with a list of records, `204` with empty body, or an
`HTTPException` with a status code and detail string. -/
inductive HttpResponse where
  | created : CoordinateResponse → HttpResponse
  | okList : List CoordinateResponse → HttpResponse
  | noContent : HttpResponse
  | httpError : Nat → String → HttpResponse
deriving DecidableEq

/-- The HTTP status code of a response. -/
def HttpResponse.statusCode : HttpResponse → Nat
  | .created _ => 201
  | .okList _ => 200
  | .noContent => 204
  | .httpError s _ => s

/-- Connection-lifecycle events emitted by `get_db_connection` and the
cursor work inside it: `connect` (psycopg2.connect succeeded), `probe`
(the `SELECT 1` liveness check), `createTable` (the
`CREATE TABLE IF NOT EXISTS`), `commit`, `rollback`, `close`. -/
inductive DbEv where
  | connect
  | probe
  | createTable
  | commit
  | rollback
  | close
deriving DecidableEq

/-- The store rejects an insert whose `name` exceeds the `VARCHAR(255)`
column width. -/
def nameTooLong : Option String → Bool
  | some s => 255 < s.length
  | none => false

/-- Whether a row matches the path parameter of `DELETE /coordinates/{id}`
(an arbitrary integer; stored ids are the positive SERIAL values). -/
def matchesId (cid : Int) (r : Row) : Bool := (r.id : Int) == cid

/-- Handler of `POST /coordinates` (`add_coordinate`).  On success it runs
`INSERT ... RETURNING id, latitude, longitude, name`, commits, and returns
the created record with status 201.  Any `psycopg2.Error` — failure to
connect, an arbitrary statement failure, or the `VARCHAR(255)` constraint
violation — is caught and turned into a 500 `HTTPException`; the
`get_db_connection` context manager rolls the transaction back and closes
the connection, so the table is unchanged. -/
def add_coordinate (connFail stmtFail : Bool) (c : Coordinate) (now : Nat) (db : Db) :
    Db × HttpResponse × List DbEv :=
  if connFail then
    (db, .httpError 500 "Database error: could not connect to server", [])
  else if stmtFail then
    (db, .httpError 500 "Database error: statement failed",
      [.connect, .rollback, .close])
  else if nameTooLong c.name then
    (db, .httpError 500 "Database error: value too long for type character varying(255)",
      [.connect, .rollback, .close])
  else
    let row : Row := ⟨db.nextId, c.latitude, c.longitude, c.name, now⟩
    (⟨db.rows ++ [row], db.nextId + 1⟩, .created row.toResponse,
      [.connect, .commit, .close])

/-- Handler of `DELETE /coordinates/{id}` (`delete_coordinate`).  Runs
`DELETE FROM coordinates WHERE id = %s`; if `cur.rowcount` is 0 it raises a
404 `HTTPException` (the connection is closed without commit, so nothing
changes), otherwise it commits and returns 204.  A `psycopg2.Error` becomes
a 500 after rollback. -/
def delete_coordinate (connFail stmtFail : Bool) (cid : Int) (db : Db) :
    Db × HttpResponse × List DbEv :=
  if connFail then
    (db, .httpError 500 "Database error: could not connect to server", [])
  else if stmtFail then
    (db, .httpError 500 "Database error: statement failed",
      [.connect, .rollback, .close])
  else if db.rows.countP (fun r => matchesId cid r) = 0 then
    (db, .httpError 404 ("Coordinate with id " ++ toString cid ++ " not found"),
      [.connect, .close])
  else
    (⟨db.rows.filter (fun r => !(matchesId cid r)), db.nextId⟩, .noContent,
      [.connect, .commit, .close])

/-- The comparison used by `ORDER BY id`. -/
def byIdLe (a b : CoordinateResponse) : Prop := a.id ≤ b.id

instance : DecidableRel byIdLe := fun a b => Nat.decLe a.id b.id

instance : IsTotal CoordinateResponse byIdLe := ⟨fun a b => Nat.le_total a.id b.id⟩

instance : IsTrans CoordinateResponse byIdLe := ⟨fun _ _ _ => Nat.le_trans⟩

/-- Handler of `GET /coordinates` (`get_all_coordinates`).  Runs
`SELECT id, latitude, longitude, name FROM coordinates ORDER BY id` and
returns all rows, projected to the response shape and sorted by ascending
id, with status 200.  Read-only: no commit, and the table is unchanged.  A
`psycopg2.Error` becomes a 500 after rollback. -/
def get_all_coordinates (connFail stmtFail : Bool) (db : Db) :
    Db × HttpResponse × List DbEv :=
  if connFail then
    (db, .httpError 500 "Database error: could not connect to server", [])
  else if stmtFail then
    (db, .httpError 500 "Database error: statement failed",
      [.connect, .rollback, .close])
  else
    (db, .okList (List.insertionSort byIdLe (db.rows.map Row.toResponse)),
      [.connect, .close])

/-- `init_db`, run by the `lifespan` startup hook before the app serves any
request: open a connection, run the `SELECT 1` liveness probe, then the
idempotent `CREATE TABLE IF NOT EXISTS coordinates (...)`, and commit.  Any
exception is re-raised after the context manager cleans up, which makes
FastAPI startup fail: the process never begins serving.  `schema` is the
table state before startup (`none` when the table does not exist yet). -/
def init_db (connFail pingFail createFail : Bool) (schema : Option Db) :
    Except String (Option Db) × List DbEv :=
  if connFail then
    (.error "could not connect to server", [])
  else if pingFail then
    (.error "liveness probe failed", [.connect, .rollback, .close])
  else if createFail then
    (.error "create table failed", [.connect, .probe, .rollback, .close])
  else
    (.ok (some (schema.getD emptyTable)),
      [.connect, .probe, .createTable, .commit, .close])

/-- Whether the process begins serving requests: `lifespan` runs `init_db`
before the `yield`, so the app serves exactly when `init_db` did not raise. -/
def appServes (connFail pingFail createFail : Bool) (schema : Option Db) : Bool :=
  (init_db connFail pingFail createFail schema).1.isOk

/-- Every connection that was opened is closed, and closing is the last
thing that happens on the connection (the `finally` clause of
`get_db_connection`). -/
def connectionReleased (tr : List DbEv) : Prop :=
  tr.count DbEv.connect = tr.count DbEv.close ∧
    (tr = [] ∨ tr.getLast? = some DbEv.close)

/-- One inbound request, with its storage-failure oracles. -/
inductive Op where
  | createOp (connFail stmtFail : Bool) (c : Coordinate) (now : Nat)
  | deleteOp (connFail stmtFail : Bool) (cid : Int)
  | listOp (connFail stmtFail : Bool)

/-- Dispatch one request to its handler: new table state and response. -/
def step (db : Db) : Op → Db × HttpResponse
  | .createOp cf sf c now =>
    ((add_coordinate cf sf c now db).1, (add_coordinate cf sf c now db).2.1)
  | .deleteOp cf sf cid =>
    ((delete_coordinate cf sf cid db).1, (delete_coordinate cf sf cid db).2.1)
  | .listOp cf sf =>
    ((get_all_coordinates cf sf db).1, (get_all_coordinates cf sf db).2.1)

/-- The table state after a sequence of requests. -/
def run (db : Db) : List Op → Db
  | [] => db
  | op :: ops => run (step db op).1 ops

/-- The id carried by a `201 Created` response, if any. -/
def respCreatedIds : HttpResponse → List Nat
  | .created r => [r.id]
  | _ => []

/-- The ids returned by the successful creates of a request sequence, in
order of occurrence. -/
def createdIds (db : Db) : List Op → List Nat
  | [] => []
  | op :: ops => respCreatedIds (step db op).2 ++ createdIds (step db op).1 ops

/-- Ordering constraint on a startup trace: if the table-creation statement
ran at all, the liveness probe ran before it. -/
def probeBeforeCreate (tr : List DbEv) : Prop :=
  DbEv.createTable ∈ tr → tr.indexOf DbEv.probe < tr.indexOf DbEv.createTable

/-- A sample one-row table used to instantiate the theorems. -/
def dbA : Db := ⟨[⟨1, 5, 6, some "SF", 0⟩], 2⟩

/-- A sample request sequence: two successful creates. -/
def opsSample : List Op :=
  [.createOp false false ⟨1, 2, none⟩ 0, .createOp false false ⟨3, 4, some "x"⟩ 1]

/-- A 256-character name, one more than `VARCHAR(255)` admits. -/
def longName : String := String.mk (List.replicate 256 'a')

theorem step_nextId_le (db : Db) (op : Op) : db.nextId ≤ (step db op).1.nextId := by
  cases op <;>
    simp only [step, add_coordinate, delete_coordinate, get_all_coordinates] <;>
    split_ifs <;> simp

/-- A `201 Created` response carries the id the SERIAL sequence stood at,
and the create advanced the sequence by one. -/
theorem step_created_eq (db : Db) (op : Op) (r : CoordinateResponse)
    (h : (step db op).2 = .created r) :
    r.id = db.nextId ∧ (step db op).1.nextId = db.nextId + 1 := by
  cases op with
  | createOp cf sf c now =>
    simp only [step, add_coordinate] at h ⊢
    split_ifs at h ⊢ <;> simp_all [Row.toResponse]
    subst h
    rfl
  | deleteOp cf sf cid =>
    simp only [step, delete_coordinate] at h
    split_ifs at h
  | listOp cf sf =>
    simp only [step, get_all_coordinates] at h
    split_ifs at h

theorem mem_respCreatedIds (resp : HttpResponse) (i : Nat)
    (h : i ∈ respCreatedIds resp) :
    ∃ r, resp = .created r ∧ i = r.id := by
  cases resp <;> simp_all [respCreatedIds]

theorem createdIds_lower (ops : List Op) :
    ∀ (db : Db), ∀ i ∈ createdIds db ops, db.nextId ≤ i := by
  induction ops with
  | nil => simp [createdIds]
  | cons op ops ih =>
    intro db i hi
    simp only [createdIds, List.mem_append] at hi
    rcases hi with h | h
    · obtain ⟨r, hr, hi⟩ := mem_respCreatedIds _ _ h
      have := (step_created_eq db op r hr).1
      omega
    · exact le_trans (step_nextId_le db op) (ih (step db op).1 i h)

theorem createdIds_pairwise (ops : List Op) :
    ∀ (db : Db), List.Pairwise (· < ·) (createdIds db ops) := by
  induction ops with
  | nil => intro db; simp [createdIds]
  | cons op ops ih =>
    intro db
    simp only [createdIds]
    rw [List.pairwise_append]
    refine ⟨?_, ih _, ?_⟩
    · rcases hr : (step db op).2 with r | l | _ | ⟨s, d⟩ <;>
        simp [respCreatedIds]
    · intro i hi j hj
      obtain ⟨r, hr, hieq⟩ := mem_respCreatedIds _ _ hi
      have h1 := step_created_eq db op r hr
      have h2 := createdIds_lower ops (step db op).1 j hj
      omega

/-- Each row present after a request is either a pre-existing row, kept
byte-for-byte, or the row the request itself inserted (whose id is the
sequence value). -/
theorem step_rows_mem (d : Db) (op : Op) :
    ∀ r ∈ (step d op).1.rows, r ∈ d.rows ∨ r.id = d.nextId := by
  cases op <;>
    simp only [step, add_coordinate, delete_coordinate, get_all_coordinates] <;>
    split_ifs <;> intro r hr <;>
    simp_all [List.mem_append, List.mem_filter]
  rcases hr with h | h
  · exact Or.inl h
  · subst h
    exact Or.inr rfl

theorem countP_matchesId_le_one (cid : Int) :
    ∀ (l : List Row), (l.map Row.id).Nodup →
      l.countP (fun r => matchesId cid r) ≤ 1 := by
  intro l
  induction l with
  | nil => simp
  | cons a l ih =>
    intro h
    rw [List.map_cons, List.nodup_cons] at h
    rw [List.countP_cons]
    by_cases ha : matchesId cid a
    · have hz : l.countP (fun r => matchesId cid r) = 0 := by
        rw [List.countP_eq_zero]
        intro r hr hm
        exfalso
        apply h.1
        have h1 : (a.id : Int) = cid := by simpa [matchesId] using ha
        have h2 : (r.id : Int) = cid := by simpa [matchesId] using hm
        have hid : r.id = a.id := by omega
        rw [← hid]
        exact List.mem_map_of_mem _ hr
      simp [ha, hz]
    · have := ih h.2
      simp [ha]
      omega

/-- C1: a delete-by-id request returns 204 No Content exactly when the
storage layer is healthy and exactly one row matched the id, 404 Not Found
exactly when the storage layer is healthy and zero rows matched, and any
storage-layer failure is reported as a 500 error — under the primary-key
invariant that stored ids are pairwise distinct. -/
theorem delete_status_characterization (cf sf : Bool) (cid : Int) (db : Db)
    (hNodup : (db.rows.map Row.id).Nodup) :
    ((delete_coordinate cf sf cid db).2.1 = .noContent ↔
      cf = false ∧ sf = false ∧ db.rows.countP (fun r => matchesId cid r) = 1) ∧
    ((delete_coordinate cf sf cid db).2.1.statusCode = 404 ↔
      cf = false ∧ sf = false ∧ db.rows.countP (fun r => matchesId cid r) = 0) ∧
    ((delete_coordinate cf sf cid db).2.1.statusCode = 500 ↔
      cf = true ∨ sf = true) := by
  have hle := countP_matchesId_le_one cid db.rows hNodup
  cases cf <;> cases sf <;>
    by_cases h0 : db.rows.countP (fun r => matchesId cid r) = 0 <;>
    simp [delete_coordinate, HttpResponse.statusCode, h0] <;> omega

/-- Witness for C1 at a concrete one-row table and the matching id. -/
theorem delete_status_characterization_witness :
    (dbA.rows.map Row.id).Nodup ∧
    (((delete_coordinate false false 1 dbA).2.1 = .noContent ↔
      false = false ∧ false = false ∧ dbA.rows.countP (fun r => matchesId 1 r) = 1) ∧
    ((delete_coordinate false false 1 dbA).2.1.statusCode = 404 ↔
      false = false ∧ false = false ∧ dbA.rows.countP (fun r => matchesId 1 r) = 0) ∧
    ((delete_coordinate false false 1 dbA).2.1.statusCode = 500 ↔
      false = true ∨ false = true)) :=
  ⟨by decide, delete_status_characterization false false 1 dbA (by decide)⟩

/-- C4: a delete whose id matches no row returns 404 and leaves the table
exactly as it was — no row added, removed, or modified. -/
theorem delete_nonexistent_unchanged (cid : Int) (db : Db)
    (h : ∀ r ∈ db.rows, matchesId cid r = false) :
    (delete_coordinate false false cid db).1 = db ∧
    (delete_coordinate false false cid db).2.1.statusCode = 404 := by
  have h0 : db.rows.countP (fun r => matchesId cid r) = 0 :=
    List.countP_eq_zero.2 (by simpa using h)
  simp [delete_coordinate, h0, HttpResponse.statusCode]

/-- Witness for C4: deleting the never-assigned id `-1` from a one-row
table. -/
theorem delete_nonexistent_unchanged_witness :
    (∀ r ∈ dbA.rows, matchesId (-1) r = false) ∧
    ((delete_coordinate false false (-1) dbA).1 = dbA ∧
      (delete_coordinate false false (-1) dbA).2.1.statusCode = 404) :=
  ⟨by decide, delete_nonexistent_unchanged (-1) dbA (by decide)⟩

/-- C2: the list operation leaves the table unchanged and returns exactly
the records of the table (projected to id, latitude, longitude, name),
sorted by ascending id; it returns the empty sequence when the table is
empty. -/
theorem get_all_returns_sorted (db : Db) :
    (get_all_coordinates false false db).1 = db ∧
    ∃ rs, (get_all_coordinates false false db).2.1 = .okList rs ∧
      List.Perm rs (db.rows.map Row.toResponse) ∧
      List.Sorted byIdLe rs ∧
      (db.rows = [] → rs = []) := by
  refine ⟨rfl, List.insertionSort byIdLe (db.rows.map Row.toResponse), rfl,
    List.perm_insertionSort _ _, List.sorted_insertionSort _ _, fun h => by simp [h]⟩

/-- Witness for C2 at a concrete one-row table. -/
theorem get_all_returns_sorted_witness :
    (get_all_coordinates false false dbA).1 = dbA ∧
    ∃ rs, (get_all_coordinates false false dbA).2.1 = .okList rs ∧
      List.Perm rs (dbA.rows.map Row.toResponse) ∧
      List.Sorted byIdLe rs ∧
      (dbA.rows = [] → rs = []) :=
  get_all_returns_sorted dbA

/-- C3: a successful create appends exactly one new row holding the given
values, and returns status 201 with the created record — which consists of
id, latitude, longitude and name only: the projection `Row.toResponse`
drops the store-assigned `created_at`, so it never appears in the
response. -/
theorem create_success_inserts_one (c : Coordinate) (now : Nat) (db : Db)
    (h : nameTooLong c.name = false) :
    (add_coordinate false false c now db).1.rows
        = db.rows ++ [⟨db.nextId, c.latitude, c.longitude, c.name, now⟩] ∧
    (add_coordinate false false c now db).1.rows.length = db.rows.length + 1 ∧
    (add_coordinate false false c now db).2.1
        = .created (Row.toResponse ⟨db.nextId, c.latitude, c.longitude, c.name, now⟩) ∧
    Row.toResponse ⟨db.nextId, c.latitude, c.longitude, c.name, now⟩
        = ⟨db.nextId, c.latitude, c.longitude, c.name⟩ ∧
    (add_coordinate false false c now db).2.1.statusCode = 201 := by
  simp [add_coordinate, h, Row.toResponse, HttpResponse.statusCode]

/-- Witness for C3: a concrete create against the one-row sample table. -/
theorem create_success_inserts_one_witness :
    nameTooLong (Coordinate.mk 37 (-122) (some "LA")).name = false ∧
    ((add_coordinate false false ⟨37, -122, some "LA"⟩ 9 dbA).1.rows
        = dbA.rows ++ [⟨dbA.nextId, 37, -122, some "LA", 9⟩] ∧
    (add_coordinate false false ⟨37, -122, some "LA"⟩ 9 dbA).1.rows.length
        = dbA.rows.length + 1 ∧
    (add_coordinate false false ⟨37, -122, some "LA"⟩ 9 dbA).2.1
        = .created (Row.toResponse ⟨dbA.nextId, 37, -122, some "LA", 9⟩) ∧
    Row.toResponse ⟨dbA.nextId, 37, -122, some "LA", 9⟩
        = ⟨dbA.nextId, 37, -122, some "LA"⟩ ∧
    (add_coordinate false false ⟨37, -122, some "LA"⟩ 9 dbA).2.1.statusCode = 201) :=
  ⟨rfl, create_success_inserts_one ⟨37, -122, some "LA"⟩ 9 dbA rfl⟩

/-- C8: no range validation is applied to latitude or longitude — a create
whose latitude is outside [-90, 90] or whose longitude is outside
[-180, 180] still succeeds with 201, the out-of-range values are returned
unchanged in the created record, and the stored row holds them verbatim. -/
theorem create_no_range_validation (lat lon : Rat) (name : Option String)
    (now : Nat) (db : Db)
    (hout : lat < -90 ∨ 90 < lat ∨ lon < -180 ∨ 180 < lon)
    (hname : nameTooLong name = false) :
    (add_coordinate false false ⟨lat, lon, name⟩ now db).2.1.statusCode = 201 ∧
    (add_coordinate false false ⟨lat, lon, name⟩ now db).2.1
        = .created ⟨db.nextId, lat, lon, name⟩ ∧
    (⟨db.nextId, lat, lon, name, now⟩ : Row)
        ∈ (add_coordinate false false ⟨lat, lon, name⟩ now db).1.rows := by
  simp [add_coordinate, hname, Row.toResponse, HttpResponse.statusCode]

/-- Witness for C8: latitude 1000 is far outside [-90, 90] and is stored
and echoed unchanged. -/
theorem create_no_range_validation_witness :
    ((1000 : Rat) < -90 ∨ (90 : Rat) < 1000 ∨ (0 : Rat) < -180 ∨ (180 : Rat) < 0) ∧
    nameTooLong none = false ∧
    ((add_coordinate false false ⟨1000, 0, none⟩ 0 dbA).2.1.statusCode = 201 ∧
      (add_coordinate false false ⟨1000, 0, none⟩ 0 dbA).2.1
          = .created ⟨dbA.nextId, 1000, 0, none⟩ ∧
      (⟨dbA.nextId, 1000, 0, none, 0⟩ : Row)
          ∈ (add_coordinate false false ⟨1000, 0, none⟩ 0 dbA).1.rows) :=
  ⟨by decide, rfl,
    create_no_range_validation 1000 0 none 0 dbA (by decide) rfl⟩

/-- C9: a create that omits the optional name succeeds, the returned record
has a null name, and in a subsequent list the record with the new id reads
with a null name (the hypothesis is the primary-key invariant that existing
ids are below the sequence value). -/
theorem create_without_name (lat lon : Rat) (now : Nat) (db : Db)
    (hInv : ∀ r ∈ db.rows, r.id < db.nextId) :
    (add_coordinate false false ⟨lat, lon, none⟩ now db).2.1
        = .created ⟨db.nextId, lat, lon, none⟩ ∧
    ∃ rs, (get_all_coordinates false false
        (add_coordinate false false ⟨lat, lon, none⟩ now db).1).2.1 = .okList rs ∧
      (⟨db.nextId, lat, lon, none⟩ : CoordinateResponse) ∈ rs ∧
      ∀ r ∈ rs, r.id = db.nextId → r.name = none := by
  have hdb : (add_coordinate false false ⟨lat, lon, none⟩ now db).1
      = ⟨db.rows ++ [⟨db.nextId, lat, lon, none, now⟩], db.nextId + 1⟩ := by
    simp [add_coordinate, nameTooLong]
  refine ⟨by simp [add_coordinate, nameTooLong, Row.toResponse], ?_⟩
  rw [hdb]
  refine ⟨_, rfl, ?_, ?_⟩
  · rw [List.mem_insertionSort]
    simp [Row.toResponse]
  · intro r hr hid
    rw [List.mem_insertionSort] at hr
    simp only [List.mem_map, List.mem_append, List.mem_singleton] at hr
    obtain ⟨row, hrow | hrow, rfl⟩ := hr
    · have hlt := hInv row hrow
      simp only [Row.toResponse] at hid
      omega
    · subst hrow
      rfl

/-- Witness for C9: creating a nameless coordinate over the sample table. -/
theorem create_without_name_witness :
    (∀ r ∈ dbA.rows, r.id < dbA.nextId) ∧
    ((add_coordinate false false ⟨7, 8, none⟩ 3 dbA).2.1
        = .created ⟨dbA.nextId, 7, 8, none⟩ ∧
    ∃ rs, (get_all_coordinates false false
        (add_coordinate false false ⟨7, 8, none⟩ 3 dbA).1).2.1 = .okList rs ∧
      (⟨dbA.nextId, 7, 8, none⟩ : CoordinateResponse) ∈ rs ∧
      ∀ r ∈ rs, r.id = dbA.nextId → r.name = none) :=
  ⟨by decide, create_without_name 7 8 3 dbA (by decide)⟩

/-- C10: a create whose name exceeds 255 characters is not rejected by the
request model (it reaches the store: the trace shows an opened connection
and a rollback), the `VARCHAR(255)` violation is reported as a generic 500
storage error — not a request-malformed status — and the table is left
unchanged. -/
theorem create_name_too_long (lat lon : Rat) (s : String) (now : Nat) (db : Db)
    (h : 255 < s.length) :
    (add_coordinate false false ⟨lat, lon, some s⟩ now db).1 = db ∧
    (add_coordinate false false ⟨lat, lon, some s⟩ now db).2.1.statusCode = 500 ∧
    (add_coordinate false false ⟨lat, lon, some s⟩ now db).2.1.statusCode ≠ 422 ∧
    (add_coordinate false false ⟨lat, lon, some s⟩ now db).2.2
        = [DbEv.connect, DbEv.rollback, DbEv.close] := by
  have hn : nameTooLong (some s) = true := by simp [nameTooLong, h]
  simp [add_coordinate, hn, HttpResponse.statusCode]

set_option maxRecDepth 10000 in
/-- Witness for C10: a 256-character name. -/
theorem create_name_too_long_witness :
    255 < longName.length ∧
    ((add_coordinate false false ⟨1, 2, some longName⟩ 0 dbA).1 = dbA ∧
    (add_coordinate false false ⟨1, 2, some longName⟩ 0 dbA).2.1.statusCode = 500 ∧
    (add_coordinate false false ⟨1, 2, some longName⟩ 0 dbA).2.1.statusCode ≠ 422 ∧
    (add_coordinate false false ⟨1, 2, some longName⟩ 0 dbA).2.2
        = [DbEv.connect, DbEv.rollback, DbEv.close]) :=
  ⟨by decide, create_name_too_long 1 2 longName 0 dbA (by decide)⟩

theorem connReleased_nil : connectionReleased [] := ⟨rfl, Or.inl rfl⟩

theorem connReleased_rollback :
    connectionReleased [DbEv.connect, DbEv.rollback, DbEv.close] :=
  ⟨by decide, Or.inr (by decide)⟩

theorem connReleased_commit :
    connectionReleased [DbEv.connect, DbEv.commit, DbEv.close] :=
  ⟨by decide, Or.inr (by decide)⟩

theorem connReleased_plain :
    connectionReleased [DbEv.connect, DbEv.close] :=
  ⟨by decide, Or.inr (by decide)⟩

theorem add_connReleased (cf sf : Bool) (c : Coordinate) (now : Nat) (db : Db) :
    connectionReleased (add_coordinate cf sf c now db).2.2 := by
  simp only [add_coordinate]
  split_ifs <;>
    first
      | exact connReleased_nil
      | exact connReleased_rollback
      | exact connReleased_commit

theorem delete_connReleased (cf sf : Bool) (cid : Int) (db : Db) :
    connectionReleased (delete_coordinate cf sf cid db).2.2 := by
  simp only [delete_coordinate]
  split_ifs <;>
    first
      | exact connReleased_nil
      | exact connReleased_rollback
      | exact connReleased_commit
      | exact connReleased_plain

theorem getAll_connReleased (cf sf : Bool) (db : Db) :
    connectionReleased (get_all_coordinates cf sf db).2.2 := by
  simp only [get_all_coordinates]
  split_ifs <;>
    first
      | exact connReleased_nil
      | exact connReleased_rollback
      | exact connReleased_plain

/-- C5: on every exit path of every handler the connection that was opened
is closed (and closing is the last event); and when a statement fails on a
healthy connection, the transaction is rolled back before the close and the
table is left unchanged. -/
theorem connection_discipline (cf sf : Bool) (c : Coordinate) (now : Nat)
    (cid : Int) (db : Db) :
    connectionReleased (add_coordinate cf sf c now db).2.2 ∧
    connectionReleased (delete_coordinate cf sf cid db).2.2 ∧
    connectionReleased (get_all_coordinates cf sf db).2.2 ∧
    (cf = false → sf = true →
      (add_coordinate cf sf c now db).1 = db ∧
      (add_coordinate cf sf c now db).2.2
          = [DbEv.connect, DbEv.rollback, DbEv.close] ∧
      (delete_coordinate cf sf cid db).1 = db ∧
      (delete_coordinate cf sf cid db).2.2
          = [DbEv.connect, DbEv.rollback, DbEv.close] ∧
      (get_all_coordinates cf sf db).1 = db ∧
      (get_all_coordinates cf sf db).2.2
          = [DbEv.connect, DbEv.rollback, DbEv.close]) := by
  refine ⟨add_connReleased cf sf c now db, delete_connReleased cf sf cid db,
    getAll_connReleased cf sf db, ?_⟩
  rintro rfl rfl
  simp [add_coordinate, delete_coordinate, get_all_coordinates]

/-- Witness for C5 in the failed-statement configuration. -/
theorem connection_discipline_witness :
    (connectionReleased (add_coordinate false true ⟨1, 2, none⟩ 0 dbA).2.2 ∧
    connectionReleased (delete_coordinate false true 1 dbA).2.2 ∧
    connectionReleased (get_all_coordinates false true dbA).2.2 ∧
    (false = false → true = true →
      (add_coordinate false true ⟨1, 2, none⟩ 0 dbA).1 = dbA ∧
      (add_coordinate false true ⟨1, 2, none⟩ 0 dbA).2.2
          = [DbEv.connect, DbEv.rollback, DbEv.close] ∧
      (delete_coordinate false true 1 dbA).1 = dbA ∧
      (delete_coordinate false true 1 dbA).2.2
          = [DbEv.connect, DbEv.rollback, DbEv.close] ∧
      (get_all_coordinates false true dbA).1 = dbA ∧
      (get_all_coordinates false true dbA).2.2
          = [DbEv.connect, DbEv.rollback, DbEv.close])) :=
  connection_discipline false true ⟨1, 2, none⟩ 0 1 dbA

/-- C6: across any request sequence, the ids returned by successful creates
are strictly increasing (hence each is unique and never equal to an id
assigned earlier), every created id exceeds every id already stored, and no
operation changes an existing record — each row after a step is a
pre-existing row kept verbatim or the freshly inserted one. -/
theorem ids_unique_monotone (db : Db) (ops : List Op)
    (hInv : ∀ r ∈ db.rows, r.id < db.nextId) :
    List.Pairwise (· < ·) (createdIds db ops) ∧
    (∀ i ∈ createdIds db ops, ∀ r ∈ db.rows, r.id < i) ∧
    (∀ (d : Db) (op : Op), ∀ r ∈ (step d op).1.rows, r ∈ d.rows ∨ r.id = d.nextId) := by
  refine ⟨createdIds_pairwise ops db, ?_, step_rows_mem⟩
  intro i hi r hr
  exact lt_of_lt_of_le (hInv r hr) (createdIds_lower ops db i hi)

/-- Witness for C6: two creates on a fresh table yield the ids 1 then 2. -/
theorem ids_unique_monotone_witness :
    (∀ r ∈ emptyTable.rows, r.id < emptyTable.nextId) ∧
    List.Pairwise (· < ·) (createdIds emptyTable opsSample) ∧
    (∀ i ∈ createdIds emptyTable opsSample, ∀ r ∈ emptyTable.rows, r.id < i) :=
  ⟨by decide, (ids_unique_monotone emptyTable opsSample (by decide)).1,
    (ids_unique_monotone emptyTable opsSample (by decide)).2.1⟩

/-- C7: in every startup trace the table-creation statement runs only after
the liveness probe; the process serves exactly when neither the connection,
the probe, nor the schema step failed; and a successful startup ensures the
table exists while keeping an already-existing table unchanged
(create-if-absent is idempotent). -/
theorem startup_behavior (cf pf crf : Bool) (schema : Option Db) :
    probeBeforeCreate (init_db cf pf crf schema).2 ∧
    (appServes cf pf crf schema = true ↔ cf = false ∧ pf = false ∧ crf = false) ∧
    (appServes cf pf crf schema = true →
      (init_db cf pf crf schema).1 = .ok (some (schema.getD emptyTable))) ∧
    (∀ d, schema = some d → appServes cf pf crf schema = true →
      (init_db cf pf crf schema).1 = .ok (some d)) := by
  cases cf <;> cases pf <;> cases crf <;>
    simp [init_db, appServes, probeBeforeCreate, Except.isOk, Except.toBool]
  rintro d rfl
  rfl

/-- Witness for C7: healthy startup over an existing table. -/
theorem startup_behavior_witness :
    probeBeforeCreate (init_db false false false (some dbA)).2 ∧
    (appServes false false false (some dbA) = true ↔
      false = false ∧ false = false ∧ false = false) ∧
    (appServes false false false (some dbA) = true →
      (init_db false false false (some dbA)).1 = .ok (some ((some dbA).getD emptyTable))) ∧
    (∀ d, some dbA = some d → appServes false false false (some dbA) = true →
      (init_db false false false (some dbA)).1 = .ok (some d)) :=
  startup_behavior false false false (some dbA)

end CoordinatesApi
